import Mathlib

/-!
Shallow embedding of the mock-interview Streamlit app (`src/app.py`).

The app keeps all state in `st.session_state`; we model the keys created by
`initialize_session_state` as a record `SessionState`.  Each run of the script
executes exactly one of four page branches (setup / chat / completed /
feedback), selected by an `if/elif` chain on the phase flags; we model each
branch body as a step function on `SessionState` and tie them together with a
`Reachable` predicate.  The external Gemini model client is abstracted as an
`Option String` result: `some t` is a completed stream whose accumulated text
is `t` (possibly empty), `none` is a raised exception.
-/

namespace InterviewApp

/-- Message roles used in `st.session_state.messages` ("system" / "user" /
"assistant"). -/
inductive Role where
  | system
  | user
  | assistant
deriving DecidableEq, Repr

/-- One chat message: a dict `{"role": ..., "content": ...}` in the source. -/
structure Message where
  role : Role
  content : String
deriving DecidableEq, Repr

/-- The session-state keys installed by `initialize_session_state`
(`app.py` lines 21-39). -/
structure SessionState where
  messages : List Message
  setup_complete : Bool
  chat_complete : Bool
  feedback_phase : Bool
  feedback_messages : List Message
  feedback_generated : Bool
  name : String
  experience : String
  skills : String
  level : String
  position : String
  company : String
deriving DecidableEq, Repr

/-- The defaults dict of `initialize_session_state` (`app.py` lines 23-36),
viewed as the fully initialized fresh state. -/
def initState : SessionState :=
  { messages := []
    setup_complete := false
    chat_complete := false
    feedback_phase := false
    feedback_messages := []
    feedback_generated := false
    name := ""
    experience := ""
    skills := ""
    level := "Junior"
    position := "Software Engineer"
    company := "Google" }

/-- `user_message_count` (`app.py` line 94): number of messages whose role is
"user". -/
def userTurnCount (s : SessionState) : Nat :=
  s.messages.countP (fun m => m.role == Role.user)

/-! ### Widget option sets (`app.py` lines 59-62) -/

/-- Options of the `st.radio('Choose your level', ...)` widget. -/
def levelOptions : List String := ["Junior", "Mid-level", "Senior"]

/-- Options of the `st.selectbox('Choose your position', ...)` widget. -/
def positionOptions : List String :=
  ["Software Engineer", "Data Scientist", "Product Manager", "UX Designer"]

/-- Options of the `st.selectbox('Choose your company', ...)` widget. -/
def companyOptions : List String :=
  ["Google", "Microsoft", "Amazon", "Meta", "Apple", "Tesla"]

/-! ### Setup page (`app.py` lines 48-80) -/

/-- The f-string `system_prompt` built by the Start Interview handler
(`app.py` lines 71-76). -/
def buildSystemPrompt (n e k lv p c : String) : String :=
  "You are an HR executive named Amanda, conducting an interview. Your candidate, "
    ++ n ++ ", has " ++ e ++ " of experience and possesses skills in " ++ k
    ++ ". You are interviewing them for the " ++ lv ++ " " ++ p
    ++ " position at " ++ c
    ++ ". Please ask relevant questions to assess their fit for the role and company culture. Start by introducing yourself and asking the first question."

/-- One run of the setup page.  Streamlit writes every widget value back into
session state on each run (`st.session_state.name = st.text_input(...)` etc.,
lines 52-62); `clicked` is the Start Interview button.  The handler validates
`required_fields = [name, experience, skills]` with Python `all`, i.e. all
three strings non-empty (line 66-68); on success it sets `setup_complete` and
appends the system-prompt message, otherwise it only shows an error. -/
def setupStep (s : SessionState) (n e k lv p c : String) (clicked : Bool) :
    SessionState :=
  let s1 := { s with name := n, experience := e, skills := k,
                     level := lv, position := p, company := c }
  if clicked then
    if n ≠ "" ∧ e ≠ "" ∧ k ≠ "" then
      { s1 with
          setup_complete := true,
          messages :=
            s1.messages
              ++ [{ role := Role.system, content := buildSystemPrompt n e k lv p c }] }
    else s1
  else s1

/-! ### Transcript adapter (`app.py` lines 121-130) -/

/-- Speakers of the external Gemini protocol ("user" / "model"). -/
inductive Speaker where
  | user
  | model
deriving DecidableEq, Repr

/-- One API message `{"role": ..., "parts": [...]}` sent to the model. -/
structure ModelTurn where
  role : Speaker
  parts : List String
deriving DecidableEq, Repr

/-- The fixed acknowledgment text inserted in place of the system message
(`app.py` line 125). -/
def ackMessage : String :=
  "Please act as described in the following instructions and start the interview."

/-- The `api_messages` conversion loop (`app.py` lines 121-130): a system
message expands to a fixed user acknowledgment turn followed by a model turn
carrying the system content; user and assistant messages map to user and
model turns. -/
def toModelTurns : List Message → List ModelTurn
  | [] => []
  | m :: rest =>
    match m.role with
    | Role.system =>
        { role := Speaker.user, parts := [ackMessage] }
          :: { role := Speaker.model, parts := [m.content] }
          :: toModelTurns rest
    | Role.user =>
        { role := Speaker.user, parts := [m.content] } :: toModelTurns rest
    | Role.assistant =>
        { role := Speaker.model, parts := [m.content] } :: toModelTurns rest

/-! ### Chat page (`app.py` lines 83-158) -/

/-- The defensive rollback `if st.session_state.messages and
st.session_state.messages[-1]["role"] == "user":
st.session_state.messages.pop()` (lines 151-152 and 157-158). -/
def popUserIfLast (s : SessionState) : SessionState :=
  match s.messages.getLast? with
  | some m =>
      if m.role = Role.user then { s with messages := s.messages.dropLast }
      else s
  | none => s

/-- Processing of one non-empty chat prompt (`app.py` lines 105-158): append
the user message, call the model on `toModelTurns` of the transcript, and on
a completed stream append the accumulated text as an assistant message if it
is non-empty; on an empty accumulation or an exception, show an error and pop
the just-appended user message.  `result = some t` is a completed stream with
accumulated text `t`; `result = none` is an exception. -/
def submitUserTurn (s : SessionState) (p : String) (result : Option String) :
    SessionState :=
  let s1 := { s with messages := s.messages ++ [{ role := Role.user, content := p }] }
  match result with
  | some full =>
      if full ≠ "" then
        { s1 with messages := s1.messages
            ++ [{ role := Role.assistant, content := full }] }
      else popUserIfLast s1
  | none => popUserIfLast s1

/-- One run of the chat page.  Before reading input it checks
`user_message_count >= 5` and, if so, sets `chat_complete` and reruns
(lines 94-99), so the pending input is never processed; otherwise a truthy
(non-empty) prompt is processed by `submitUserTurn`. -/
def chatStep (s : SessionState) (prompt : Option String)
    (result : Option String) : SessionState :=
  if 5 ≤ userTurnCount s then { s with chat_complete := true }
  else
    match prompt with
    | none => s
    | some p => if p = "" then s else submitUserTurn s p result

/-! ### Completed page (`app.py` lines 161-167) -/

/-- One run of the completion page: the Get Feedback button sets
`feedback_phase := true` and `feedback_generated := false`. -/
def completedStep (s : SessionState) (clicked : Bool) : SessionState :=
  if clicked then { s with feedback_phase := true, feedback_generated := false }
  else s

/-! ### Feedback page (`app.py` lines 170-223) -/

/-- One run of the feedback-generation block (`app.py` lines 173-217).  If
`feedback_generated` is already true nothing happens.  Otherwise the model is
invoked; a completed stream (`some t`) appends the accumulated text — even
when empty — as an assistant feedback message and sets `feedback_generated`;
an exception (`none`) shows an error and sets `feedback_generated`.  The
second component records whether an error message was surfaced
(`st.error`). -/
def feedbackStep (s : SessionState) (result : Option String) :
    SessionState × Bool :=
  if s.feedback_generated then (s, false)
  else
    match result with
    | some t =>
        ({ s with
            feedback_messages :=
              s.feedback_messages ++ [{ role := Role.assistant, content := t }],
            feedback_generated := true }, false)
    | none => ({ s with feedback_generated := true }, true)

/-! ### Restart (`app.py` lines 226-228) and re-initialization -/

/-- `st.session_state` viewed as a partial record: a key may be absent
(`none`) before `initialize_session_state` has installed it. -/
structure RawState where
  messages : Option (List Message)
  setup_complete : Option Bool
  chat_complete : Option Bool
  feedback_phase : Option Bool
  feedback_messages : Option (List Message)
  feedback_generated : Option Bool
  name : Option String
  experience : Option String
  skills : Option String
  level : Option String
  position : Option String
  company : Option String
deriving DecidableEq, Repr

/-- `st.session_state.clear()`: every key absent. -/
def clearedState : RawState :=
  { messages := none, setup_complete := none, chat_complete := none
    feedback_phase := none, feedback_messages := none
    feedback_generated := none, name := none, experience := none
    skills := none, level := none, position := none, company := none }

/-- A fully-present view of a `SessionState`. -/
def toRaw (s : SessionState) : RawState :=
  { messages := some s.messages, setup_complete := some s.setup_complete
    chat_complete := some s.chat_complete
    feedback_phase := some s.feedback_phase
    feedback_messages := some s.feedback_messages
    feedback_generated := some s.feedback_generated
    name := some s.name, experience := some s.experience
    skills := some s.skills, level := some s.level
    position := some s.position, company := some s.company }

/-- `initialize_session_state` (`app.py` lines 21-39): each key that is not
present is set to its default; present keys are kept. -/
def initialize_session_state (r : RawState) : RawState :=
  { messages := some (r.messages.getD [])
    setup_complete := some (r.setup_complete.getD false)
    chat_complete := some (r.chat_complete.getD false)
    feedback_phase := some (r.feedback_phase.getD false)
    feedback_messages := some (r.feedback_messages.getD [])
    feedback_generated := some (r.feedback_generated.getD false)
    name := some (r.name.getD "")
    experience := some (r.experience.getD "")
    skills := some (r.skills.getD "")
    level := some (r.level.getD "Junior")
    position := some (r.position.getD "Software Engineer")
    company := some (r.company.getD "Google") }

/-- The Restart Interview handler (`app.py` lines 226-228):
`st.session_state.clear()` followed by `st.rerun()`, after which the next
script run re-executes `initialize_session_state` on the cleared state. -/
def restartRun (_ : SessionState) : RawState :=
  initialize_session_state clearedState

/-! ### Page dispatch and reachable states

The `if/elif` chain of the script (`app.py` lines 48, 83, 161, 170) selects
exactly one page per run. -/

/-- Condition of the setup branch: `not setup_complete and not
feedback_phase`. -/
def InSetupPage (s : SessionState) : Prop :=
  s.setup_complete = false ∧ s.feedback_phase = false

instance (s : SessionState) : Decidable (InSetupPage s) :=
  inferInstanceAs (Decidable (_ ∧ _))

/-- Condition of the chat branch: the setup branch was not taken and
`not chat_complete and not feedback_phase`. -/
def InChatPage (s : SessionState) : Prop :=
  ¬InSetupPage s ∧ s.chat_complete = false ∧ s.feedback_phase = false

instance (s : SessionState) : Decidable (InChatPage s) :=
  inferInstanceAs (Decidable (¬_ ∧ _ ∧ _))

/-- Condition of the completion branch. -/
def InCompletedPage (s : SessionState) : Prop :=
  ¬InSetupPage s ∧ ¬InChatPage s ∧ s.chat_complete = true ∧
    s.feedback_phase = false

instance (s : SessionState) : Decidable (InCompletedPage s) :=
  inferInstanceAs (Decidable (¬_ ∧ ¬_ ∧ _ ∧ _))

/-- Condition of the feedback branch. -/
def InFeedbackPage (s : SessionState) : Prop :=
  ¬InSetupPage s ∧ ¬InChatPage s ∧ ¬InCompletedPage s ∧
    s.feedback_phase = true

instance (s : SessionState) : Decidable (InFeedbackPage s) :=
  inferInstanceAs (Decidable (¬_ ∧ ¬_ ∧ ¬_ ∧ _))

/-- The session states the app can actually be in: the fresh state, plus one
page-branch run from a reachable state whose flags select that page.  The
level/position/company hypotheses of the setup constructor record the widget
contract: `st.radio` and `st.selectbox` return one of their listed options. -/
inductive Reachable : SessionState → Prop where
  | init : Reachable initState
  | setup (s : SessionState) (n e k lv p c : String) (clicked : Bool) :
      Reachable s → InSetupPage s →
      lv ∈ levelOptions → p ∈ positionOptions → c ∈ companyOptions →
      Reachable (setupStep s n e k lv p c clicked)
  | chat (s : SessionState) (prompt result : Option String) :
      Reachable s → InChatPage s → Reachable (chatStep s prompt result)
  | completed (s : SessionState) (clicked : Bool) :
      Reachable s → InCompletedPage s → Reachable (completedStep s clicked)
  | feedback (s : SessionState) (result : Option String) :
      Reachable s → InFeedbackPage s → Reachable (feedbackStep s result).1
  | restart (s : SessionState) :
      Reachable s → InFeedbackPage s → Reachable initState

/-! ### Substring containment (for the system-prompt claim) -/

/-- `sub` occurs verbatim inside `s`. -/
def strContains (s sub : String) : Prop :=
  ∃ a b : String, s = a ++ sub ++ b

/-! ## Helper lemmas -/

theorem strContains_last (t sub : String) : strContains (t ++ sub) sub :=
  ⟨t, "", by simp⟩

theorem strContains_left_of (t u sub : String) (h : strContains t sub) :
    strContains (t ++ u) sub := by
  obtain ⟨a, b, rfl⟩ := h
  exact ⟨a, b ++ u, String.append_assoc (a ++ sub) b u⟩

/-- Popping right after the speculative user-message append restores the
original state exactly. -/
theorem popUserIfLast_append_user (s : SessionState) (p : String) :
    popUserIfLast
      { s with messages := s.messages ++ [{ role := Role.user, content := p }] } = s := by
  simp [popUserIfLast]

/-- A rollback result shared by the chat-page claims: an exception or an
empty accumulated stream leaves the state exactly as before the call. -/
theorem submitUserTurn_failure_eq (s : SessionState) (p : String)
    (r : Option String) (h : r = none ∨ r = some "") :
    submitUserTurn s p r = s := by
  rcases h with rfl | rfl
  · exact popUserIfLast_append_user s p
  · simpa [submitUserTurn] using popUserIfLast_append_user s p

/-! ## Claim theorems -/

/-- A transcript with one System, two User and one Assistant message, in that
order. -/
def c1Transcript : List Message :=
  [{ role := Role.system, content := "S" },
   { role := Role.user, content := "u1" },
   { role := Role.user, content := "u2" },
   { role := Role.assistant, content := "a1" }]

/-- C1, counterexample: on a transcript with one System, two User and one
Assistant message the adapter emits 5 API turns (the System message expands
to two turns and each of the three other messages to one), not the 4 turns
the claim states. -/
theorem toModelTurns_claim_counterexample :
    toModelTurns c1Transcript =
      [{ role := Speaker.user, parts := [ackMessage] },
       { role := Speaker.model, parts := ["S"] },
       { role := Speaker.user, parts := ["u1"] },
       { role := Speaker.user, parts := ["u2"] },
       { role := Speaker.model, parts := ["a1"] }] ∧
    (toModelTurns c1Transcript).length ≠ 4 := by
  exact ⟨rfl, by decide⟩

/-- C1, amended: for every transcript of one System, two User and one
Assistant message (in that order), `toModelTurns` produces exactly
[User(ack), Model(system content), User(u1), User(u2), Model(a1)] — 5 turns
from 4 source messages, preserving the relative order of the non-System
messages. -/
theorem toModelTurns_system_two_user_one_assistant (sc u1 u2 a1 : String) :
    toModelTurns
      [{ role := Role.system, content := sc },
       { role := Role.user, content := u1 },
       { role := Role.user, content := u2 },
       { role := Role.assistant, content := a1 }] =
      [{ role := Speaker.user, parts := [ackMessage] },
       { role := Speaker.model, parts := [sc] },
       { role := Speaker.user, parts := [u1] },
       { role := Speaker.user, parts := [u2] },
       { role := Speaker.model, parts := [a1] }] := rfl

/-- C2: if the model call raises or the accumulated streamed text is empty,
the error handling removes the speculatively appended User message and the
resulting session state — transcript, phase flags, everything — equals the
state immediately before the call. -/
theorem submitUserTurn_rollback_exact (s : SessionState) (p : String)
    (r : Option String) (h : r = none ∨ r = some "") :
    submitUserTurn s p r = s ∧
    (submitUserTurn s p r).messages = s.messages ∧
    (submitUserTurn s p r).chat_complete = s.chat_complete ∧
    (submitUserTurn s p r).feedback_phase = s.feedback_phase := by
  have he := submitUserTurn_failure_eq s p r h
  exact ⟨he, by rw [he], by rw [he], by rw [he]⟩

/-- C2, witness at a concrete state and a raised model failure. -/
theorem submitUserTurn_rollback_exact_witness :
    submitUserTurn initState "hello" none = initState :=
  (submitUserTurn_rollback_exact initState "hello" none (Or.inl rfl)).1

/-- C3, counterexample: an assignment whose `level` field is empty but whose
three free-text fields are non-empty is accepted by the Start Interview
handler — `setup_complete` becomes true and a System message is appended —
because the code validates only `[name, experience, skills]`. -/
theorem startInterview_empty_level_counterexample :
    (setupStep initState "a" "b" "c" "" "Software Engineer" "Google" true).setup_complete
        = true ∧
    (setupStep initState "a" "b" "c" "" "Software Engineer" "Google" true).messages.length
        = 1 := by
  exact ⟨rfl, rfl⟩

/-- C3, amended: for every assignment in which at least one of the free-text
fields name, experience, skills is empty, Start Interview fails: the phase
flags are unchanged (in particular the session stays in Setup) and no System
message is appended to the transcript. -/
theorem startInterview_empty_field_rejected (s : SessionState)
    (n e k lv p c : String) (h : n = "" ∨ e = "" ∨ k = "") :
    (setupStep s n e k lv p c true).setup_complete = s.setup_complete ∧
    (setupStep s n e k lv p c true).messages = s.messages ∧
    (setupStep s n e k lv p c true).chat_complete = s.chat_complete ∧
    (setupStep s n e k lv p c true).feedback_phase = s.feedback_phase ∧
    (setupStep s n e k lv p c true).feedback_messages = s.feedback_messages ∧
    (setupStep s n e k lv p c true).feedback_generated = s.feedback_generated := by
  have hv : ¬(n ≠ "" ∧ e ≠ "" ∧ k ≠ "") := by tauto
  simp [setupStep, hv]

/-- C3, witness: an empty name with the other fields filled is rejected at the
fresh state. -/
theorem startInterview_empty_field_rejected_witness :
    (setupStep initState "" "5 years" "Python, SQL" "Junior" "Software Engineer"
        "Google" true).setup_complete = initState.setup_complete ∧
    (setupStep initState "" "5 years" "Python, SQL" "Junior" "Software Engineer"
        "Google" true).messages = initState.messages ∧
    (setupStep initState "" "5 years" "Python, SQL" "Junior" "Software Engineer"
        "Google" true).chat_complete = initState.chat_complete ∧
    (setupStep initState "" "5 years" "Python, SQL" "Junior" "Software Engineer"
        "Google" true).feedback_phase = initState.feedback_phase ∧
    (setupStep initState "" "5 years" "Python, SQL" "Junior" "Software Engineer"
        "Google" true).feedback_messages = initState.feedback_messages ∧
    (setupStep initState "" "5 years" "Python, SQL" "Junior" "Software Engineer"
        "Google" true).feedback_generated = initState.feedback_generated :=
  startInterview_empty_field_rejected initState "" "5 years" "Python, SQL"
    "Junior" "Software Engineer" "Google" (Or.inl rfl)

/-- C6: below the turn limit, a successful turn (non-empty prompt, completed
stream with non-empty text) changes the state only by appending the User
message followed by the Assistant message carrying the accumulated response,
and increases the user-turn count by exactly 1. -/
theorem successful_turn_appends_two (s : SessionState) (p r : String)
    (hc : userTurnCount s < 5) (hp : p ≠ "") (hr : r ≠ "") :
    chatStep s (some p) (some r) =
      { s with messages := s.messages
          ++ [{ role := Role.user, content := p },
              { role := Role.assistant, content := r }] } ∧
    userTurnCount (chatStep s (some p) (some r)) = userTurnCount s + 1 := by
  have hle : ¬5 ≤ userTurnCount s := by omega
  have h1 : chatStep s (some p) (some r) =
      { s with messages := s.messages
          ++ [{ role := Role.user, content := p },
              { role := Role.assistant, content := r }] } := by
    simp [chatStep, hle, hp, submitUserTurn, hr]
  refine ⟨h1, ?_⟩
  rw [h1]
  simp [userTurnCount, List.countP_append]

/-- C6, witness: one successful turn from the fresh state. -/
theorem successful_turn_appends_two_witness :
    chatStep initState (some "hi") (some "资") =
      { initState with messages :=
          [{ role := Role.user, content := "hi" },
           { role := Role.assistant, content := "资" }] } ∧
    userTurnCount (chatStep initState (some "hi") (some "资")) =
      userTurnCount initState + 1 :=
  successful_turn_appends_two initState "hi" "资" (by decide) (by decide)
    (by decide)

/-- C7: once `feedback_generated` is true, the feedback block is a no-op —
the state is returned unchanged (so a repeated invocation observes the same
feedback transcript) and no error is surfaced. -/
theorem generateFeedback_noop_when_generated (s : SessionState)
    (r : Option String) (h : s.feedback_generated = true) :
    feedbackStep s r = (s, false) ∧
    (feedbackStep s r).1.feedback_messages = s.feedback_messages := by
  have he : feedbackStep s r = (s, false) := by simp [feedbackStep, h]
  exact ⟨he, by rw [he]⟩

/-- C7, witness at a state whose feedback was already generated. -/
theorem generateFeedback_noop_when_generated_witness :
    feedbackStep { initState with feedback_generated := true } (some "more") =
      ({ initState with feedback_generated := true }, false) :=
  (generateFeedback_noop_when_generated
    { initState with feedback_generated := true } (some "more") rfl).1

/-- C8, counterexample: a completed stream with empty accumulated text (the
empty-response case) appends an empty Assistant entry to the feedback
transcript — it does not remain empty — and no user-visible error is
surfaced. -/
theorem generateFeedback_empty_response_counterexample :
    (feedbackStep { initState with feedback_phase := true }
        (some "")).1.feedback_messages ≠ [] ∧
    (feedbackStep { initState with feedback_phase := true } (some "")).2
        = false := by
  exact ⟨by decide, rfl⟩

/-- C8, amended: every feedback invocation (guard open, i.e.
`feedback_generated = false`) ends with `feedback_generated = true`; a raised
model failure leaves the feedback transcript unchanged and surfaces an error,
while a completed stream — even with empty accumulated text — appends the
accumulated text as an Assistant entry and surfaces no error. -/
theorem generateFeedback_terminal_flag (s : SessionState) (r : Option String)
    (h : s.feedback_generated = false) :
    (feedbackStep s r).1.feedback_generated = true ∧
    (r = none →
      (feedbackStep s r).1.feedback_messages = s.feedback_messages ∧
      (feedbackStep s r).2 = true) ∧
    (∀ t, r = some t →
      (feedbackStep s r).1.feedback_messages =
        s.feedback_messages ++ [{ role := Role.assistant, content := t }] ∧
      (feedbackStep s r).2 = false) := by
  cases r <;> simp [feedbackStep, h]

/-- C8, witness: a raised failure at a fresh feedback phase marks
generation terminal, keeps the feedback transcript empty and surfaces an
error. -/
theorem generateFeedback_terminal_flag_witness :
    (feedbackStep { initState with feedback_phase := true }
        none).1.feedback_generated = true ∧
    (feedbackStep { initState with feedback_phase := true }
        none).1.feedback_messages =
      ({ initState with feedback_phase := true } : SessionState).feedback_messages ∧
    (feedbackStep { initState with feedback_phase := true } none).2 = true := by
  have h := generateFeedback_terminal_flag
    { initState with feedback_phase := true } none rfl
  exact ⟨h.1, (h.2.1 rfl).1, (h.2.1 rfl).2⟩

/-- C9: restarting — `st.session_state.clear()` followed by the rerun's
`initialize_session_state` — yields, from every state, exactly the fully
initialized fresh session: empty transcripts, all phase flags false, and all
setup fields at their defaults. -/
theorem restart_yields_fresh_state (s : SessionState) :
    restartRun s = toRaw initState ∧
    initState.messages = [] ∧ initState.feedback_messages = [] ∧
    initState.setup_complete = false ∧ initState.chat_complete = false ∧
    initState.feedback_phase = false ∧ initState.feedback_generated = false ∧
    initState.name = "" ∧ initState.experience = "" ∧
    initState.skills = "" ∧ initState.level = "Junior" ∧
    initState.position = "Software Engineer" ∧ initState.company = "Google" :=
  ⟨rfl, rfl, rfl, rfl, rfl, rfl, rfl, rfl, rfl, rfl, rfl, rfl, rfl⟩

/-- C4: from a Setup-phase state (empty transcript), a valid assignment (all
three free-text fields non-empty) makes Start Interview succeed with a
transcript of length exactly 1 whose sole entry has role System, and the
system prompt contains each of the six setup values verbatim as a
substring. -/
theorem startInterview_valid_system_message (s : SessionState)
    (n e k lv p c : String) (hm : s.messages = [])
    (hn : n ≠ "") (he : e ≠ "") (hk : k ≠ "") :
    (setupStep s n e k lv p c true).messages =
      [{ role := Role.system, content := buildSystemPrompt n e k lv p c }] ∧
    (setupStep s n e k lv p c true).messages.length = 1 ∧
    (∀ m ∈ (setupStep s n e k lv p c true).messages, m.role = Role.system) ∧
    strContains (buildSystemPrompt n e k lv p c) n ∧
    strContains (buildSystemPrompt n e k lv p c) e ∧
    strContains (buildSystemPrompt n e k lv p c) k ∧
    strContains (buildSystemPrompt n e k lv p c) lv ∧
    strContains (buildSystemPrompt n e k lv p c) p ∧
    strContains (buildSystemPrompt n e k lv p c) c := by
  have hmsgs : (setupStep s n e k lv p c true).messages =
      [{ role := Role.system, content := buildSystemPrompt n e k lv p c }] := by
    simp [setupStep, hm, hn, he, hk]
  refine ⟨hmsgs, by rw [hmsgs]; rfl, by rw [hmsgs]; simp, ?_, ?_, ?_, ?_, ?_, ?_⟩ <;>
    · simp only [buildSystemPrompt]
      repeat first
        | exact strContains_last _ _
        | apply strContains_left_of

/-- C4, witness: the Jane Doe example scenario from the specification. -/
theorem startInterview_valid_system_message_witness :
    (setupStep initState "Jane Doe" "5 years" "Python, SQL" "Junior"
        "Software Engineer" "Google" true).messages =
      [{ role := Role.system,
         content := buildSystemPrompt "Jane Doe" "5 years" "Python, SQL"
           "Junior" "Software Engineer" "Google" }] ∧
    (setupStep initState "Jane Doe" "5 years" "Python, SQL" "Junior"
        "Software Engineer" "Google" true).messages.length = 1 ∧
    (∀ m ∈ (setupStep initState "Jane Doe" "5 years" "Python, SQL" "Junior"
        "Software Engineer" "Google" true).messages, m.role = Role.system) ∧
    strContains (buildSystemPrompt "Jane Doe" "5 years" "Python, SQL" "Junior"
        "Software Engineer" "Google") "Jane Doe" ∧
    strContains (buildSystemPrompt "Jane Doe" "5 years" "Python, SQL" "Junior"
        "Software Engineer" "Google") "5 years" ∧
    strContains (buildSystemPrompt "Jane Doe" "5 years" "Python, SQL" "Junior"
        "Software Engineer" "Google") "Python, SQL" ∧
    strContains (buildSystemPrompt "Jane Doe" "5 years" "Python, SQL" "Junior"
        "Software Engineer" "Google") "Junior" ∧
    strContains (buildSystemPrompt "Jane Doe" "5 years" "Python, SQL" "Junior"
        "Software Engineer" "Google") "Software Engineer" ∧
    strContains (buildSystemPrompt "Jane Doe" "5 years" "Python, SQL" "Junior"
        "Software Engineer" "Google") "Google" :=
  startInterview_valid_system_message initState "Jane Doe" "5 years"
    "Python, SQL" "Junior" "Software Engineer" "Google" rfl (by decide)
    (by decide) (by decide)

/-! ## Frame lemmas for the reachability invariants -/

theorem setupStep_widget_fields (s : SessionState) (n e k lv p c : String)
    (b : Bool) :
    (setupStep s n e k lv p c b).level = lv ∧
    (setupStep s n e k lv p c b).position = p ∧
    (setupStep s n e k lv p c b).company = c := by
  cases b
  · simp [setupStep]
  · simp [setupStep]
    split <;> simp

theorem userTurnCount_setupStep (s : SessionState) (n e k lv p c : String)
    (b : Bool) :
    userTurnCount (setupStep s n e k lv p c b) = userTurnCount s := by
  cases b
  · simp [setupStep, userTurnCount]
  · simp [setupStep, userTurnCount]
    split <;> simp [List.countP_append]

theorem submitUserTurn_frame (s : SessionState) (p : String)
    (r : Option String) :
    (submitUserTurn s p r).setup_complete = s.setup_complete ∧
    (submitUserTurn s p r).chat_complete = s.chat_complete ∧
    (submitUserTurn s p r).feedback_phase = s.feedback_phase ∧
    (submitUserTurn s p r).level = s.level ∧
    (submitUserTurn s p r).position = s.position ∧
    (submitUserTurn s p r).company = s.company := by
  unfold submitUserTurn popUserIfLast
  cases r <;> dsimp only <;> repeat' split <;> simp

theorem chatStep_widget_frame (s : SessionState) (prompt r : Option String) :
    (chatStep s prompt r).level = s.level ∧
    (chatStep s prompt r).position = s.position ∧
    (chatStep s prompt r).company = s.company := by
  rcases Nat.lt_or_ge (userTurnCount s) 5 with hlt | hge
  · simp only [chatStep, if_neg (by omega : ¬5 ≤ userTurnCount s)]
    cases prompt with
    | none => exact ⟨rfl, rfl, rfl⟩
    | some p =>
      by_cases hp : p = ""
      · simp [hp]
      · simp only [if_neg hp]
        have h := submitUserTurn_frame s p r
        exact ⟨h.2.2.2.1, h.2.2.2.2.1, h.2.2.2.2.2⟩
  · simp [chatStep, if_pos hge]

theorem completedStep_frame (s : SessionState) (b : Bool) :
    (completedStep s b).messages = s.messages ∧
    (completedStep s b).level = s.level ∧
    (completedStep s b).position = s.position ∧
    (completedStep s b).company = s.company := by
  cases b <;> simp [completedStep]

theorem feedbackStep_frame (s : SessionState) (r : Option String) :
    ((feedbackStep s r).1).messages = s.messages ∧
    ((feedbackStep s r).1).level = s.level ∧
    ((feedbackStep s r).1).position = s.position ∧
    ((feedbackStep s r).1).company = s.company := by
  unfold feedbackStep
  split
  · simp
  · cases r <;> simp

theorem userTurnCount_submitUserTurn_le (s : SessionState) (p : String)
    (r : Option String) (h : userTurnCount s < 5) :
    userTurnCount (submitUserTurn s p r) ≤ 5 := by
  cases r with
  | none => rw [submitUserTurn_failure_eq s p none (Or.inl rfl)]; omega
  | some full =>
    by_cases hf : full = ""
    · subst hf
      rw [submitUserTurn_failure_eq s p (some "") (Or.inr rfl)]
      omega
    · have hcount : userTurnCount (submitUserTurn s p (some full)) =
          userTurnCount s + 1 := by
        simp [submitUserTurn, hf, userTurnCount, List.countP_append]
      omega

theorem userTurnCount_chatStep_le (s : SessionState) (prompt r : Option String)
    (h : userTurnCount s ≤ 5) : userTurnCount (chatStep s prompt r) ≤ 5 := by
  rcases Nat.lt_or_ge (userTurnCount s) 5 with hlt | hge
  · simp only [chatStep, if_neg (by omega : ¬5 ≤ userTurnCount s)]
    cases prompt with
    | none => exact h
    | some p =>
      by_cases hp : p = ""
      · simpa [hp] using h
      · simp only [if_neg hp]
        exact userTurnCount_submitUserTurn_le s p r hlt
  · simp only [chatStep, if_pos hge]
    simpa [userTurnCount] using h

/-- The global turn-limit invariant: no reachable state holds more than 5
user messages. -/
theorem reachable_userTurnCount_le (s : SessionState) (hr : Reachable s) :
    userTurnCount s ≤ 5 := by
  induction hr with
  | init => decide
  | setup s n e k lv p c b _ _ _ _ _ ih =>
      rw [userTurnCount_setupStep]; exact ih
  | chat s prompt result _ _ ih => exact userTurnCount_chatStep_le _ _ _ ih
  | completed s b _ _ ih =>
      simpa [userTurnCount, (completedStep_frame s b).1] using ih
  | feedback s r _ _ ih =>
      simpa [userTurnCount, (feedbackStep_frame s r).1] using ih
  | restart s _ _ => decide

/-- Membership invariant for the widget-backed fields. -/
theorem reachable_widget_mem (s : SessionState) (hr : Reachable s) :
    s.level ∈ levelOptions ∧ s.position ∈ positionOptions ∧
      s.company ∈ companyOptions := by
  induction hr with
  | init => exact ⟨by decide, by decide, by decide⟩
  | setup s n e k lv p c b _ _ hlv hp hc _ =>
      have hw := setupStep_widget_fields s n e k lv p c b
      rw [hw.1, hw.2.1, hw.2.2]
      exact ⟨hlv, hp, hc⟩
  | chat s prompt result _ _ ih =>
      have hw := chatStep_widget_frame s prompt result
      rw [hw.1, hw.2.1, hw.2.2]
      exact ih
  | completed s b _ _ ih =>
      have hw := completedStep_frame s b
      rw [hw.2.1, hw.2.2.1, hw.2.2.2]
      exact ih
  | feedback s r _ _ ih =>
      have hw := feedbackStep_frame s r
      rw [hw.2.1, hw.2.2.1, hw.2.2.2]
      exact ih
  | restart s _ _ => exact ⟨by decide, by decide, by decide⟩

theorem mem_levelOptions_ne_empty {x : String} (h : x ∈ levelOptions) :
    x ≠ "" := by
  fin_cases h <;> decide

theorem mem_positionOptions_ne_empty {x : String} (h : x ∈ positionOptions) :
    x ≠ "" := by
  fin_cases h <;> decide

theorem mem_companyOptions_ne_empty {x : String} (h : x ∈ companyOptions) :
    x ≠ "" := by
  fin_cases h <;> decide

/-- The Start Interview validation outcome, for every state: it flips
`setup_complete` exactly when the three free-text fields are non-empty,
independently of the level/position/company arguments. -/
theorem setupStep_validation (s : SessionState) (n e k lv p c : String) :
    (setupStep s n e k lv p c true).setup_complete = true ↔
      s.setup_complete = true ∨ (n ≠ "" ∧ e ≠ "" ∧ k ≠ "") := by
  by_cases hv : n ≠ "" ∧ e ≠ "" ∧ k ≠ ""
  · simp [setupStep, hv]
  · simp [setupStep, hv]

/-- C5: in every reachable Interviewing-phase state the user-turn count never
exceeds the limit 5, and a chat-page run at the limit (count = 5) rejects
the pending input without touching the transcript. -/
theorem interviewing_turn_limit (s : SessionState) (hr : Reachable s)
    (_hph : InChatPage s) :
    userTurnCount s ≤ 5 ∧
    (userTurnCount s = 5 → ∀ prompt result,
      (chatStep s prompt result).messages = s.messages) := by
  refine ⟨reachable_userTurnCount_le s hr, ?_⟩
  intro h5 prompt result
  simp [chatStep, h5]

/-- C5, witness at the reachable state right after a valid Start
Interview. -/
theorem interviewing_turn_limit_witness :
    userTurnCount (setupStep initState "Jane Doe" "5 years" "Python, SQL"
      "Junior" "Software Engineer" "Google" true) ≤ 5 :=
  (interviewing_turn_limit _
    (Reachable.setup initState "Jane Doe" "5 years" "Python, SQL" "Junior"
      "Software Engineer" "Google" true Reachable.init ⟨rfl, rfl⟩ (by decide)
      (by decide) (by decide))
    (by decide)).1

/-- C10: in every reachable state the level, position and company fields hold
a non-empty member of their fixed widget option sets, and the Start
Interview validation outcome depends only on the three free-text fields —
it succeeds exactly when name, experience and skills are all non-empty,
independently of the widget-field arguments. -/
theorem reachable_option_fields_invariant (s : SessionState)
    (hr : Reachable s) :
    (s.level ∈ levelOptions ∧ s.level ≠ "" ∧
     s.position ∈ positionOptions ∧ s.position ≠ "" ∧
     s.company ∈ companyOptions ∧ s.company ≠ "") ∧
    (∀ n e k lv p c : String,
      ((setupStep s n e k lv p c true).setup_complete = true ↔
        s.setup_complete = true ∨ (n ≠ "" ∧ e ≠ "" ∧ k ≠ ""))) := by
  have hm := reachable_widget_mem s hr
  exact ⟨⟨hm.1, mem_levelOptions_ne_empty hm.1, hm.2.1,
      mem_positionOptions_ne_empty hm.2.1, hm.2.2,
      mem_companyOptions_ne_empty hm.2.2⟩,
    fun n e k lv p c => setupStep_validation s n e k lv p c⟩

/-- C10, witness at the fresh state. -/
theorem reachable_option_fields_invariant_witness :
    (initState.level ∈ levelOptions ∧ initState.level ≠ "" ∧
     initState.position ∈ positionOptions ∧ initState.position ≠ "" ∧
     initState.company ∈ companyOptions ∧ initState.company ≠ "") ∧
    ((setupStep initState "a" "b" "c" "Junior" "Software Engineer" "Google"
        true).setup_complete = true ↔
      initState.setup_complete = true ∨ ("a" ≠ "" ∧ "b" ≠ "" ∧ "c" ≠ "")) :=
  ⟨(reachable_option_fields_invariant initState Reachable.init).1,
   (reachable_option_fields_invariant initState Reachable.init).2 "a" "b" "c"
     "Junior" "Software Engineer" "Google"⟩

end InterviewApp
